import Mathlib

/-
Verification of the resilient API test client (`ApiClient` in
`src/support/hooks.js`) against its natural-language specification.

The embedding below translates the client's pure decision logic into Lean:
  * header bookkeeping (`defaults.headers.common`) as an association list;
  * `setupAuthentication`, `setAuthToken`, the token-install step of `login`;
  * `handleRateLimit` as a function from the current clock value and the
    stored timestamp queue to the admission time and the new queue
    (JavaScript `Date.now`/`setTimeout` become explicit clock arguments);
  * the response-interceptor retry logic (`setupInterceptors`,
    `shouldRetry`, `retryRequest`) as a function over an abstract server,
    modelled as a map from attempt index to that attempt's outcome;
  * `validateResponse`, the verb operations, `measureResponseTime`, and
    `batchRequests`.
-/

/-! ## Headers (`client.defaults.headers.common`) -/

/-- Header mapping of a request or of the client defaults, as an
association list with unique keys, mirroring a JavaScript object. -/
abbrev Headers : Type := List (String × String)

/-- Assignment `headers[name] = value` on a JavaScript object: replace the
binding when the key is present, append it otherwise. -/
def setHeader : Headers → String → String → Headers
  | [], n, v => [(n, v)]
  | p :: rest, n, v =>
    if p.1 = n then (n, v) :: rest else p :: setHeader rest n v

/-- Lookup `headers[name]` on a JavaScript object. -/
def getHeader : Headers → String → Option String
  | [], _ => Option.none
  | p :: rest, n => if p.1 = n then some p.2 else getHeader rest n

/-! ## Authentication (`setupAuthentication`, `setAuthToken`, `login`) -/

/-- Authentication configuration accepted by the `ApiClient` constructor.
The source switches on `authConfig.type` with the string tags `bearer`,
`basic`, `api-key` and `custom`; the `api-key` case reads only
`authConfig.key`, so the `headerName` component carried here is the
caller-supplied header name that the claims talk about. -/
inductive AuthConfig where
  | bearer (token : String)
  | basic (username password : String)
  | apiKey (headerName key : String)
  | custom (headers : List (String × String))

/-- Translation of `ApiClient.setupAuthentication` acting on the default
header mapping. `b64` abstracts `Buffer.from(s).toString` with the base64
encoding, a host-library primitive. An absent config (`authConfig` falsy)
leaves the headers untouched; in the `api-key` case the source writes the
fixed header `X-API-Key` and ignores any caller-supplied header name. -/
def setupAuthentication (b64 : String → String) (auth : Option AuthConfig)
    (h : Headers) : Headers :=
  match auth with
  | Option.none => h
  | some a =>
    match a with
    | AuthConfig.bearer t => setHeader h "Authorization" ("Bearer " ++ t)
    | AuthConfig.basic u p =>
        setHeader h "Authorization" ("Basic " ++ b64 (u ++ ":" ++ p))
    | AuthConfig.apiKey _hn k => setHeader h "X-API-Key" k
    | AuthConfig.custom hs => hs.foldl (fun acc p => setHeader acc p.1 p.2) h

/-- Translation of `ApiClient.setAuthToken`. -/
def setAuthToken (h : Headers) (token : String) : Headers :=
  setHeader h "Authorization" ("Bearer " ++ token)

/-- Token-install step of `ApiClient.login`: on a successful response the
source runs `if (response.token) { headers.common.Authorization = ... }`.
A missing token, or the falsy empty string, installs nothing. -/
def login (h : Headers) (responseToken : Option String) : Headers :=
  match responseToken with
  | some t => if t = "" then h else setAuthToken h t
  | Option.none => h

/-- Session events against one client instance: a request being sent (it
reads the current default headers) or a successful login response carrying
an optional token. -/
inductive ClientEvent where
  | send
  | loginEvt (token : Option String)

/-- Default headers observed by each sent request, in order, over a
sequence of session events. -/
def runEvents : List ClientEvent → Headers → List Headers
  | [], _ => []
  | ClientEvent.send :: rest, h => h :: runEvents rest h
  | ClientEvent.loginEvt t :: rest, h => runEvents rest (login h t)

/-! ## Rate limiter (`handleRateLimit`) -/

/-- Budget computed by the constructor:
`parseInt(process.env.API_RATE_LIMIT) || 100`. `Option.none` stands for an
absent or non-numeric variable (`parseInt` yields `NaN`); a parsed `0` is
falsy in JavaScript, so `|| 100` replaces it by the default as well. -/
def rateLimitBudget (env : Option Int) : Int :=
  match env with
  | some n => if n = 0 then 100 else n
  | Option.none => 100

/-- Translation of `ApiClient.handleRateLimit` for one call. `now` is the
value of `Date.now()` at the start of the call and `q` the stored
`rateLimitQueue`. The source filters out entries of age at least 1000 ms,
then, when the remaining count reaches the budget, waits until the oldest
entry leaves the window — but afterwards pushes the stale pre-wait `now`
and never repeats the admission check. With an empty post-eviction queue
the indexing `queue[0]` yields `undefined`, the wait computes `NaN`, and
`NaN > 0` is false, so no wait happens. The result is the real admission
time (call start plus any wait) and the new queue. -/
def handleRateLimit (budget : Int) (now : Int) (q : List Int) :
    Int × List Int :=
  let q2 := q.filter (fun t => decide (now - t < 1000))
  let waitTime : Int :=
    match q2.head? with
    | some oldest => 1000 - (now - oldest)
    | Option.none => 0
  let admitAt :=
    if budget ≤ (q2.length : Int) ∧ 0 < waitTime then now + waitTime else now
  (admitAt, q2 ++ [now])

/-- Admission times of a sequence of calls to `handleRateLimit`, each
given its call-start clock value, threading the stored queue. -/
def rlTrace (budget : Int) : List Int → List Int → List Int
  | [], _ => []
  | s :: rest, q =>
    (handleRateLimit budget s q).1 ::
      rlTrace budget rest (handleRateLimit budget s q).2

/-- Number of admission times falling inside the trailing 1000 ms window
that ends at clock value `T`, with the same strict age bound the source's
eviction filter uses. -/
def windowCount (admissions : List Int) (T : Int) : Nat :=
  (admissions.filter (fun a => decide (T - a < 1000 ∧ a ≤ T))).length

/-! ## Retry pipeline (`setupInterceptors`, `shouldRetry`, `retryRequest`) -/

/-- Error object observed by the response interceptor: the optional HTTP
status of `error.response`, the optional transport error code, and whether
`error.message` contains the substring `timeout`. -/
structure HttpError where
  status : Option Nat
  code : Option String
  msgHasTimeout : Bool
deriving DecidableEq

/-- Status list from `ApiClient.shouldRetry`. -/
def retryableStatuses : List Nat := [408, 429, 500, 502, 503, 504]

/-- Transport error code list from `ApiClient.shouldRetry`. -/
def retryableErrors : List String := ["ECONNRESET", "ENOTFOUND", "ETIMEDOUT"]

/-- Translation of `ApiClient.shouldRetry`. -/
def shouldRetry (e : HttpError) : Bool :=
  (match e.status with
   | some s => decide (s ∈ retryableStatuses)
   | Option.none => false) ||
  (match e.code with
   | some c => decide (c ∈ retryableErrors)
   | Option.none => false) ||
  e.msgHasTimeout

/-- Outcome of one underlying send: a response body, or the error the
response interceptor receives. -/
inductive SendResult where
  | ok (data : String)
  | err (e : HttpError)
deriving DecidableEq

/-- Final outcome of one logical request through the interceptor chain:
success, rejection with the underlying error, or the
`Max retry attempts (...) exceeded` error thrown by `retryRequest`. -/
inductive PipelineResult where
  | success (data : String)
  | failure (e : HttpError)
  | maxRetryExceeded (attempts : Nat)
deriving DecidableEq

/-- Response-interceptor error branch for a request whose config already
carries the `_retry` flag: the guard `!error.config._retry` fails, so the
error is rejected to the caller unchanged, with no further send. The
components are the result, the number of additional sends, and the list of
backoff waits imposed. -/
def interceptRetriedError (e : HttpError) :
    PipelineResult × Nat × List Nat :=
  (PipelineResult.failure e, 0, [])

/-- Translation of `ApiClient.retryRequest` for a fresh config
(`_retryCount` unset, so the increment yields 1). It sets `_retry`, checks
the attempt bound, waits `2 ^ _retryCount * 1000` ms, and resends; a
failure of the resent request reaches the interceptor with `_retry` set
and is rejected by `interceptRetriedError`. `server n` is the outcome of
underlying send number `n` (0 is the original request). -/
def retryRequest (server : Nat → SendResult) (retryAttempts : Nat) :
    PipelineResult × Nat × List Nat :=
  let rc := 0 + 1
  if rc > retryAttempts then
    (PipelineResult.maxRetryExceeded retryAttempts, 0, [])
  else
    match server rc with
    | SendResult.ok d => (PipelineResult.success d, 1, [2 ^ rc * 1000])
    | SendResult.err e2 =>
      let r := interceptRetriedError e2
      (r.1, r.2.1 + 1, 2 ^ rc * 1000 :: r.2.2)

/-- Response-interceptor error branch for a fresh request: retry exactly
when `shouldRetry` approves and the `_retry` flag is not yet set. -/
def interceptFreshError (server : Nat → SendResult) (retryAttempts : Nat)
    (e : HttpError) : PipelineResult × Nat × List Nat :=
  if shouldRetry e then retryRequest server retryAttempts
  else (PipelineResult.failure e, 0, [])

/-- One logical request through the interceptor chain: the initial send,
then the response interceptor's error handling. Returns the final result,
the total number of underlying sends, and the backoff waits imposed. -/
def requestPipeline (server : Nat → SendResult) (retryAttempts : Nat) :
    PipelineResult × Nat × List Nat :=
  match server 0 with
  | SendResult.ok d => (PipelineResult.success d, 1, [])
  | SendResult.err e =>
    let r := interceptFreshError server retryAttempts e
    (r.1, r.2.1 + 1, r.2.2)

/-! ## Validation and verb operations -/

deriving instance DecidableEq for Except

/-- Schema object as used by `validateResponse`: its `validate` method
either rejects the body with a message (`error.details[0].message`) or
returns the validated value. -/
structure Schema where
  validate : String → Except String String

/-- Translation of `ApiClient.validateResponse` on the response body. -/
def validateResponse (data : String) (schema : Option Schema) :
    Except String String :=
  match schema with
  | Option.none => Except.ok data
  | some s =>
    match s.validate data with
    | Except.error msg =>
        Except.error ("Response validation failed: " ++ msg)
    | Except.ok v => Except.ok v

/-- Error classification carried by the wrapped error `handleError`
builds, next to its `API <method> <endpoint> failed` message. -/
inductive Failure where
  | http (e : HttpError)
  | maxRetry (attempts : Nat)
  | validation (msg : String)
deriving DecidableEq

/-- Translation of the verb operations (`get`, `post`, `put`, `patch`,
`delete`): run the request through the interceptor pipeline, validate the
body against the optional schema, and wrap any failure via `handleError`.
The request body is folded into the abstract `server`. The second
component is the number of underlying sends performed. -/
def verbOp (method : String) (server : Nat → SendResult)
    (retryAttempts : Nat) (ep : String) (schema : Option Schema) :
    Except (String × Failure) String × Nat :=
  match requestPipeline server retryAttempts with
  | (PipelineResult.success d, n, _) =>
    match validateResponse d schema with
    | Except.ok v => (Except.ok v, n)
    | Except.error m =>
        (Except.error ("API " ++ method ++ " " ++ ep ++ " failed",
          Failure.validation m), n)
  | (PipelineResult.failure e, n, _) =>
      (Except.error ("API " ++ method ++ " " ++ ep ++ " failed",
        Failure.http e), n)
  | (PipelineResult.maxRetryExceeded a, n, _) =>
      (Except.error ("API " ++ method ++ " " ++ ep ++ " failed",
        Failure.maxRetry a), n)

/-- Character-wise uppercase, the behaviour of JavaScript `toUpperCase`
on the ASCII method names the client deals in. -/
def toUpperCase (s : String) : String :=
  String.mk (s.data.map Char.toUpper)

/-- Translation of `ApiClient.measureResponseTime`'s method dispatch: the
switch on `method.toUpperCase()` forwards `GET`, `POST`, `PUT` and
`DELETE` to the corresponding verb operation (no schema is passed) and
throws `Unsupported HTTP method: <method>` for every other value before
any send. Errors are rethrown unchanged, so only their message is kept.
The second component is the number of underlying sends performed. -/
def measureResponseTime (server : Nat → SendResult) (retryAttempts : Nat)
    (ep : String) (method : String) : Except String String × Nat :=
  let u := toUpperCase method
  if u = "GET" ∨ u = "POST" ∨ u = "PUT" ∨ u = "DELETE" then
    match verbOp u server retryAttempts ep Option.none with
    | (Except.ok d, n) => (Except.ok d, n)
    | (Except.error e, n) => (Except.error e.1, n)
  else (Except.error ("Unsupported HTTP method: " ++ method), 0)

/-! ## Batch execution (`batchRequests`) -/

/-- Accumulation loop of `ApiClient.batchRequests`: each per-item pipeline
outcome is pushed onto `results` on success and onto `errors` (with the
error message) on failure. -/
def batchLoop : List (Except String String) → List String × List String
  | [] => ([], [])
  | Except.ok d :: rest =>
    let r := batchLoop rest
    (d :: r.1, r.2)
  | Except.error m :: rest =>
    let r := batchLoop rest
    (r.1, m :: r.2)

/-- Return value of `ApiClient.batchRequests`:
`{ results, errors, total }`. -/
structure BatchOutcome where
  results : List String
  errors : List String
  total : Nat
deriving DecidableEq

/-- Translation of `ApiClient.batchRequests`, taking the per-item pipeline
outcomes in input order (each item is awaited inside its own try/catch, so
every item runs regardless of earlier failures). -/
def batchRequests (runs : List (Except String String)) : BatchOutcome :=
  let r := batchLoop runs
  ⟨r.1, r.2, runs.length⟩

/-! ## Helper lemmas -/

/-- Writing a header makes it readable back with the written value. -/
theorem getHeader_setHeader (h : Headers) (n v : String) :
    getHeader (setHeader h n v) n = some v := by
  induction h with
  | nil => simp [setHeader, getHeader]
  | cons p rest ih =>
    by_cases hp : p.1 = n
    · simp [setHeader, getHeader, hp]
    · simp [setHeader, getHeader, hp, ih]

/-- Successes accumulated by the batch loop are the successful outcomes
in input order. -/
theorem batchLoop_results (runs : List (Except String String)) :
    (batchLoop runs).1 = runs.filterMap (fun r =>
      match r with
      | Except.ok d => some d
      | Except.error _ => Option.none) := by
  induction runs with
  | nil => rfl
  | cons head tail ih => cases head <;> simp [batchLoop, ih]

/-- Errors accumulated by the batch loop are the failing outcomes' messages
in input order. -/
theorem batchLoop_errors (runs : List (Except String String)) :
    (batchLoop runs).2 = runs.filterMap (fun r =>
      match r with
      | Except.error m => some m
      | Except.ok _ => Option.none) := by
  induction runs with
  | nil => rfl
  | cons head tail ih => cases head <;> simp [batchLoop, ih]

/-- Every batch item lands in exactly one of the two accumulated lists. -/
theorem batchLoop_length (runs : List (Except String String)) :
    (batchLoop runs).1.length + (batchLoop runs).2.length = runs.length := by
  induction runs with
  | nil => rfl
  | cons head tail ih => cases head <;> simp [batchLoop] <;> omega

/-! ## Claim theorems -/

/-- C1. The sliding-window invariant fails on the code: with budget 1 and
sequential calls to `handleRateLimit` starting at clock values 0, 0 and
1000 (each start at or after the previous admission, as the two inequality
conjuncts check), the admissions happen at 0, 1000 and 1000, so the
trailing 1000 ms window ending at 1000 holds two admissions, exceeding the
budget. The code pushes the stale pre-wait timestamp and never re-checks
after waiting, so a delayed request is recorded as if admitted at its call
start. -/
theorem rateLimit_window_violation :
    rlTrace 1 [0, 0, 1000] [] = [0, 1000, 1000] ∧
    (handleRateLimit 1 0 []).1 ≤ 0 ∧
    (handleRateLimit 1 0 (handleRateLimit 1 0 []).2).1 ≤ 1000 ∧
    windowCount [0, 1000, 1000] 1000 = 2 ∧
    1 < windowCount [0, 1000, 1000] 1000 := by decide

/-- C2. A request that fails on every attempt with retryable status 500
and the default `retryAttempts = 3` performs exactly 2 underlying sends
(one retry, after a 2000 ms backoff) and rejects with the underlying
error: the interceptor's `!error.config._retry` guard blocks any further
retry, so the `Max retry attempts exceeded` path is never reached, rather
than the claimed 4 sends followed by a retry-exhausted error. -/
theorem retry_two_sends :
    requestPipeline (fun _ => SendResult.err ⟨some 500, Option.none, false⟩) 3 =
      (PipelineResult.failure ⟨some 500, Option.none, false⟩, 2, [2000]) := by
  decide

/-- C3 counterexample. Over the spec's own five descriptors with item 3
failing, `batchRequests` does not return a five-element per-item outcome
sequence: successes and failures are split into two arrays (`results` gets
the four successes, `errors` the one failure message), so the position of
the failing item among the inputs is not preserved. -/
theorem batch_shape_counterexample :
    (batchRequests [Except.ok "r1", Except.ok "r2", Except.error "e3",
        Except.ok "r4", Except.ok "r5"]).results = ["r1", "r2", "r4", "r5"] ∧
    ¬ ((batchRequests [Except.ok "r1", Except.ok "r2", Except.error "e3",
        Except.ok "r4", Except.ok "r5"]).results.length = 5) ∧
    (batchRequests [Except.ok "r1", Except.ok "r2", Except.error "e3",
        Except.ok "r4", Except.ok "r5"]).errors = ["e3"] ∧
    (batchRequests [Except.ok "r1", Except.ok "r2", Except.error "e3",
        Except.ok "r4", Except.ok "r5"]).total = 5 := by decide

/-- C3 amended. `batchRequests` runs every item (a failure does not abort
the batch) and partitions the outcomes into two arrays: `results` holds
the successes and `errors` the failure messages, each preserving relative
input order, with `results.length + errors.length = total = N`. -/
theorem batchRequests_partition (runs : List (Except String String)) :
    (batchRequests runs).total = runs.length ∧
    (batchRequests runs).results = runs.filterMap (fun r =>
      match r with
      | Except.ok d => some d
      | Except.error _ => Option.none) ∧
    (batchRequests runs).errors = runs.filterMap (fun r =>
      match r with
      | Except.error m => some m
      | Except.ok _ => Option.none) ∧
    (batchRequests runs).results.length + (batchRequests runs).errors.length =
      runs.length :=
  ⟨rfl, batchLoop_results runs, batchLoop_errors runs, batchLoop_length runs⟩

/-- C4 counterexample. A zero budget does not cause a rejection with a
configuration error: the constructor's `parseInt(...) || 100` turns a
configured 0 into the default 100, and `handleRateLimit` itself, run with
an internal budget of 0 on an empty queue at clock 7, admits the request
immediately, returning admission time 7 and pushing the timestamp. -/
theorem zero_budget_admits :
    rateLimitBudget (some 0) = 100 ∧
    handleRateLimit 0 7 [] = (7, [7]) := by decide

/-- C4 amended. A configured budget of zero is replaced by the default 100
at construction (0 is falsy under `||`); `handleRateLimit` has no
configuration-error path and never suspends forever: with budget 0 every
call still appends its timestamp (is admitted), and on an empty queue the
admission is immediate. -/
theorem zero_budget_no_error :
    rateLimitBudget (some 0) = 100 ∧
    (∀ (now : Int) (q : List Int),
      (handleRateLimit 0 now q).2 =
        q.filter (fun t => decide (now - t < 1000)) ++ [now]) ∧
    (∀ now : Int, handleRateLimit 0 now [] = (now, [now])) :=
  ⟨rfl, fun _ _ => rfl, fun _ => rfl⟩

/-- C5. For a response with a non-retryable HTTP status (any 4xx other
than 408 and 429), exactly one underlying send occurs and the error
propagates immediately with no retry scheduled. -/
theorem nonretryable_single_send (server : Nat → SendResult) (ra s : Nat)
    (hs : server 0 = SendResult.err ⟨some s, Option.none, false⟩)
    (h400 : 400 ≤ s) (h500 : s < 500) (h408 : s ≠ 408) (h429 : s ≠ 429) :
    requestPipeline server ra =
      (PipelineResult.failure ⟨some s, Option.none, false⟩, 1, []) := by
  have hmem : ¬ s ∈ retryableStatuses := by
    simp [retryableStatuses]
    omega
  have hnr : shouldRetry ⟨some s, Option.none, false⟩ = false := by
    simp [shouldRetry, hmem]
  simp [requestPipeline, hs, interceptFreshError, hnr]

/-- C5 witness: a 404 response is sent once and rejected unretried. -/
theorem nonretryable_single_send_witness :
    requestPipeline (fun _ => SendResult.err ⟨some 404, Option.none, false⟩) 3 =
      (PipelineResult.failure ⟨some 404, Option.none, false⟩, 1, []) :=
  nonretryable_single_send (fun _ => SendResult.err ⟨some 404, Option.none, false⟩)
    3 404 rfl (by decide) (by decide) (by decide) (by decide)

/-- C6 counterexample. The claimed backoff law `base * 2 ^ n` with `n`
starting at 0 gives 1000 ms before the first resubmission; the code
computes `2 ^ _retryCount * 1000` with `_retryCount` already incremented
to 1, so the observed backoff before the first (and only) resubmission is
2000 ms. -/
theorem backoff_base_counterexample :
    (requestPipeline (fun _ => SendResult.err ⟨some 503, Option.none, false⟩)
        3).2.2 = [2000] ∧
    ¬ ((2000 : Nat) = 1000 * 2 ^ 0) := by decide

/-- C6 amended. The backoff before the n-th resubmission (n starting at 0)
is `1000 * 2 ^ (n + 1)` ms, and because the interceptor retries at most
once, the observed backoff sequence of a logical request whose first send
fails retryably is exactly `[1000 * 2 ^ (0 + 1)] = [2000]`, which is
trivially non-decreasing. -/
theorem backoff_delay_observed (server : Nat → SendResult) (ra : Nat)
    (e : HttpError) (h0 : server 0 = SendResult.err e)
    (hr : shouldRetry e = true) (hra : 1 ≤ ra) :
    (requestPipeline server ra).2.2 = [1000 * 2 ^ (0 + 1)] ∧
    List.Sorted (fun a b => a ≤ b) (requestPipeline server ra).2.2 := by
  have hng : ¬ (0 + 1 > ra) := by omega
  have hd : (requestPipeline server ra).2.2 = [2000] := by
    cases h1 : server 1 with
    | ok d =>
      simp [requestPipeline, h0, interceptFreshError, hr, retryRequest, hng, h1]
    | err e2 =>
      simp [requestPipeline, h0, interceptFreshError, hr, retryRequest, hng, h1,
        interceptRetriedError]
  refine ⟨?_, ?_⟩
  · rw [hd]; norm_num
  · rw [hd]; exact List.sorted_singleton 2000

/-- C6 witness: a request failing with 500 is resubmitted once after a
2000 ms backoff. -/
theorem backoff_delay_observed_witness :
    (requestPipeline (fun _ => SendResult.err ⟨some 500, Option.none, false⟩)
        3).2.2 = [1000 * 2 ^ (0 + 1)] ∧
    List.Sorted (fun a b => a ≤ b)
      (requestPipeline (fun _ => SendResult.err ⟨some 500, Option.none, false⟩)
        3).2.2 :=
  backoff_delay_observed (fun _ => SendResult.err ⟨some 500, Option.none, false⟩)
    3 ⟨some 500, Option.none, false⟩ rfl (by decide) (by decide)

/-- C7 counterexample. Configured with the api-key variant carrying the
caller-supplied header name `My-Header`, the client does not set a header
of that name: the source writes the fixed header `X-API-Key` and ignores
the caller-supplied name. -/
theorem apiKey_headerName_counterexample :
    getHeader (setupAuthentication id
        (some (AuthConfig.apiKey "My-Header" "secret")) []) "My-Header" =
      Option.none ∧
    getHeader (setupAuthentication id
        (some (AuthConfig.apiKey "My-Header" "secret")) []) "X-API-Key" =
      some "secret" := by decide

/-- C7 amended. With the api-key variant, the decorated defaults always
carry the fixed header `X-API-Key` with the configured key as value,
whatever header name the caller supplied. -/
theorem apiKey_sets_fixed_header (b64 : String → String) (h : Headers)
    (hn k : String) :
    getHeader (setupAuthentication b64 (some (AuthConfig.apiKey hn k)) h)
      "X-API-Key" = some k :=
  getHeader_setHeader h "X-API-Key" k

/-- C8. When a login response carries a (non-empty) token, the stored
default headers are updated so that a request sent after the login carries
`Authorization: Bearer <token>`, while a request sent before the login
still observed the old defaults unchanged. -/
theorem login_installs_token (h : Headers) (t : String) (ht : ¬ t = "") :
    runEvents [ClientEvent.send, ClientEvent.loginEvt (some t),
        ClientEvent.send] h =
      [h, setHeader h "Authorization" ("Bearer " ++ t)] ∧
    getHeader (setHeader h "Authorization" ("Bearer " ++ t)) "Authorization" =
      some ("Bearer " ++ t) := by
  constructor
  · simp [runEvents, login, setAuthToken, ht]
  · exact getHeader_setHeader h "Authorization" ("Bearer " ++ t)

/-- C8 witness: a session that sends, logs in with token `tok123`, and
sends again: the first send sees the old basic credential, the second the
new bearer token. -/
theorem login_installs_token_witness :
    runEvents [ClientEvent.send, ClientEvent.loginEvt (some "tok123"),
        ClientEvent.send] [("Authorization", "Basic b2xk")] =
      [[("Authorization", "Basic b2xk")],
        setHeader [("Authorization", "Basic b2xk")] "Authorization"
          ("Bearer " ++ "tok123")] ∧
    getHeader (setHeader [("Authorization", "Basic b2xk")] "Authorization"
        ("Bearer " ++ "tok123")) "Authorization" =
      some ("Bearer " ++ "tok123") :=
  login_installs_token [("Authorization", "Basic b2xk")] "tok123" (by decide)

/-- C9. Without a schema the response body passes through the validator
and the verb operation unchanged; with a schema the response violates,
the verb operation performs its single send and surfaces the validation
error, wrapped with the violation description, to the caller — no retry
is scheduled for it. -/
theorem validateResponse_surfacing :
    (∀ d : String, validateResponse d Option.none = Except.ok d) ∧
    (∀ (server : Nat → SendResult) (ra : Nat) (ep d : String),
      server 0 = SendResult.ok d →
        verbOp "GET" server ra ep Option.none = (Except.ok d, 1)) ∧
    (∀ (server : Nat → SendResult) (ra : Nat) (ep d m : String) (s : Schema),
      server 0 = SendResult.ok d → s.validate d = Except.error m →
        verbOp "GET" server ra ep (some s) =
          (Except.error ("API GET " ++ ep ++ " failed",
            Failure.validation ("Response validation failed: " ++ m)), 1)) := by
  refine ⟨fun d => rfl, ?_, ?_⟩
  · intro server ra ep d h
    simp [verbOp, requestPipeline, h, validateResponse]
  · intro server ra ep d m s h0 hv
    simp [verbOp, requestPipeline, h0, validateResponse, hv]

/-- C9 witness: a successful send whose body violates the supplied schema
is validated once, and the failure message reaches the caller. -/
theorem validateResponse_surfacing_witness :
    validateResponse "body" Option.none = Except.ok "body" ∧
    verbOp "GET" (fun _ => SendResult.ok "body") 3 "/u"
        (some ⟨fun _ => Except.error "missing id"⟩) =
      (Except.error ("API GET " ++ "/u" ++ " failed",
        Failure.validation ("Response validation failed: " ++ "missing id")), 1) :=
  ⟨validateResponse_surfacing.1 "body",
    validateResponse_surfacing.2.2 (fun _ => SendResult.ok "body") 3 "/u"
      "body" "missing id" ⟨fun _ => Except.error "missing id"⟩ rfl rfl⟩

/-- C10. `measureResponseTime` dispatches exactly the methods whose
uppercase form is GET, POST, PUT or DELETE to the verb operations (the
send count is the dispatched operation's); for every other method
argument — PATCH included, although `patch` is a public verb of the
client — it throws `Unsupported HTTP method: <method>` with zero
underlying sends. -/
theorem measureResponseTime_method_support (server : Nat → SendResult)
    (ra : Nat) (ep method : String) :
    (toUpperCase method = "GET" ∨ toUpperCase method = "POST" ∨
      toUpperCase method = "PUT" ∨ toUpperCase method = "DELETE" →
      (measureResponseTime server ra ep method).2 =
        (verbOp (toUpperCase method) server ra ep Option.none).2) ∧
    (¬ (toUpperCase method = "GET" ∨ toUpperCase method = "POST" ∨
        toUpperCase method = "PUT" ∨ toUpperCase method = "DELETE") →
      measureResponseTime server ra ep method =
        (Except.error ("Unsupported HTTP method: " ++ method), 0)) := by
  constructor
  · intro hsup
    simp only [measureResponseTime]
    rw [if_pos hsup]
    cases hv : verbOp (toUpperCase method) server ra ep Option.none with
    | mk res n => cases res <;> rfl
  · intro hns
    simp only [measureResponseTime]
    rw [if_neg hns]

/-- C10 witness: PATCH is rejected with the unsupported-method error and
zero sends, even though the underlying server would answer it. -/
theorem measureResponseTime_method_support_witness :
    measureResponseTime (fun _ => SendResult.ok "pong") 3 "/ping" "PATCH" =
      (Except.error ("Unsupported HTTP method: " ++ "PATCH"), 0) :=
  (measureResponseTime_method_support (fun _ => SendResult.ok "pong") 3 "/ping"
    "PATCH").2 (by decide)
